import Mathlib

/-!
Verification of transactions_analysis.py, a parser for Saudi bank SMS
purchase notifications.  The program is embedded shallowly: Python strings
become lists of characters, the regular-expression searches of the source
become executable matching functions with leftmost-search semantics, the
datetime parse becomes an explicit strptime-style parser, and the two
external effects (the OpenAI chat call and the output-file write) become an
oracle parameter and an explicit component of the result.
-/

namespace TransactionsAnalysis

/-! ## Character classes of the regular expressions in the source.
The classes model the Python (Unicode) classes restricted to the character
ranges this domain can produce: ASCII plus the Arabic letter block and the
Arabic-Indic digits. -/

/-- Numeric value of a decimal digit character (ASCII or Arabic-Indic). -/
def digitVal (c : Char) : Nat :=
  if '0' ≤ c ∧ c ≤ '9' then c.toNat - 48
  else if '٠' ≤ c ∧ c ≤ '٩' then c.toNat - 0x660
  else 0

/-- Class d of the source patterns: a decimal digit. -/
def isPyDigit (c : Char) : Bool :=
  decide ('0' ≤ c ∧ c ≤ '9') || decide ('٠' ≤ c ∧ c ≤ '٩')

/-- Class w of the source patterns: a word character (letters, digits,
underscore; the Arabic letters of the SMS markers lie in 0621-064A). -/
def isPyWord (c : Char) : Bool :=
  c.isAlpha || isPyDigit c || c == '_' || decide ('ء' ≤ c ∧ c ≤ 'ي')

/-- Class s of the source patterns, also the set removed by str.strip. -/
def isPyWhite (c : Char) : Bool :=
  c == ' ' || c == '\t' || c == '\n' || c == '\r' || c == '\x0b' || c == '\x0c'

/-! ## Fixed marker literals of the source patterns. -/

/-- Purchase marker, first alternative of the anchored type pattern. -/
def purchaseMarker : List Char := "شراء".data

/-- Credit-card transfer marker, second alternative of the type pattern. -/
def transferMarker : List Char := "بطاقة ائتمانية:تحويل".data

/-- Literal part of the amount pattern. -/
def amountMarker : List Char := "مبلغ:SAR ".data

/-- Literal part of the vendor pattern. -/
def vendorMarker : List Char := "لدى:".data

/-- Literal part of the date and the time patterns. -/
def dateTimeMarker : List Char := "في:".data

/-- Literal part of the card-number pattern. -/
def cardMarker : List Char := "بطاقة:".data

/-- Noise substring removed from the vendor capture by str.replace. -/
def vendorNoise : List Char := "\nفي".data

/-! ## Regex machinery: leftmost search with single-position matchers. -/

/-- Consume a literal from the front of the text, if present. -/
def dropLit (lit l : List Char) : Option (List Char) :=
  if lit.isPrefixOf l then some (l.drop lit.length) else none

/-- Leftmost-match search: re.search tries the matcher at every position of
the text, from the start, also at the empty final position. -/
def pySearch (m : List Char → Option (List Char)) : List Char → Option (List Char)
  | [] => m []
  | c :: rest =>
    match m (c :: rest) with
    | some r => some r
    | none => pySearch m rest

/-- Single-position matcher for the amount pattern: the amount marker
followed by a nonempty greedy run over digits and the dot; the run is the
capture.  Nothing follows the greedy class in the pattern, so the capture
is the maximal run. -/
def matchAmountAt (l : List Char) : Option (List Char) :=
  match dropLit amountMarker l with
  | none => none
  | some r =>
    let run := r.takeWhile (fun c => isPyDigit c || c == '.')
    if run.isEmpty then none else some run

/-- Single-position matcher for the vendor pattern: the vendor marker
followed by a nonempty greedy run over word and whitespace characters. -/
def matchVendorAt (l : List Char) : Option (List Char) :=
  match dropLit vendorMarker l with
  | none => none
  | some r =>
    let run := r.takeWhile (fun c => isPyWord c || isPyWhite c)
    if run.isEmpty then none else some run

/-- Single-position matcher for the card pattern: the card marker followed
by exactly four digits, which form the capture. -/
def matchCardAt (l : List Char) : Option (List Char) :=
  match dropLit cardMarker l with
  | none => none
  | some r =>
    match r with
    | a :: b :: c :: d :: _ =>
      if isPyDigit a && isPyDigit b && isPyDigit c && isPyDigit d then some [a, b, c, d] else none
    | _ => none

/-- Exactly two digits. -/
def takeTwoDigits : List Char → Option (List Char × List Char)
  | a :: b :: r => if isPyDigit a && isPyDigit b then some ([a, b], r) else none
  | _ => none

/-- One or two digits followed by a dash (greedy, with the backtracking the
regex engine performs against the following dash); returns the digits and
the text after the dash. -/
def takeMidDash : List Char → Option (List Char × List Char)
  | a :: b :: c :: r =>
    if isPyDigit a && isPyDigit b && c == '-' then some ([a, b], r)
    else if isPyDigit a && b == '-' then some ([a], c :: r)
    else none
  | [a, b] => if isPyDigit a && b == '-' then some ([a], []) else none
  | _ => none

/-- One or two digits at the end of the date pattern (greedy, nothing
follows in the pattern). -/
def takeEndDigits : List Char → Option (List Char)
  | a :: b :: _ =>
    if isPyDigit a && isPyDigit b then some [a, b]
    else if isPyDigit a then some [a]
    else none
  | [a] => if isPyDigit a then some [a] else none
  | [] => none

/-- Single-position matcher for the date pattern: the date marker followed
by two digits, a dash, one or two digits, a dash, one or two digits; the
capture is the whole date text. -/
def matchDateAt (l : List Char) : Option (List Char) :=
  match dropLit dateTimeMarker l with
  | none => none
  | some r =>
    match takeTwoDigits r with
    | none => none
    | some (yy, r1) =>
      match r1 with
      | '-' :: r2 =>
        match takeMidDash r2 with
        | none => none
        | some (mm, r3) =>
          match takeEndDigits r3 with
          | none => none
          | some dd => some (yy ++ '-' :: mm ++ '-' :: dd)
      | _ => none

/-- Single-position matcher for the time pattern: the date marker followed
by a nonempty run over digits and dashes, a space, and the captured
HH colon MM.  The digit-dash class excludes the space, so only the maximal
run can be followed by the required space: backtracking cannot shorten it. -/
def matchTimeAt (l : List Char) : Option (List Char) :=
  match dropLit dateTimeMarker l with
  | none => none
  | some r =>
    let run := r.takeWhile (fun c => isPyDigit c || c == '-')
    if run.isEmpty then none
    else
      match r.drop run.length with
      | ' ' :: h1 :: h2 :: ':' :: m1 :: m2 :: _ =>
        if isPyDigit h1 && isPyDigit h2 && isPyDigit m1 && isPyDigit m2 then
          some [h1, h2, ':', m1, m2]
        else none
      | _ => none

/-- The anchored type pattern: the text must begin with the purchase marker
or, failing that, with the transfer marker; the capture is the marker. -/
def typeMatch (t : List Char) : Option (List Char) :=
  if purchaseMarker.isPrefixOf t then some purchaseMarker
  else if transferMarker.isPrefixOf t then some transferMarker
  else none

/-! ## String post-processing used on the vendor capture. -/

/-- Remove trailing whitespace, the right half of str.strip. -/
def dropTrailWhite : List Char → List Char
  | [] => []
  | c :: rest =>
    match dropTrailWhite rest with
    | [] => if isPyWhite c then [] else [c]
    | r => c :: r

/-- str.strip: remove leading and trailing whitespace. -/
def pyStrip (l : List Char) : List Char :=
  dropTrailWhite (l.dropWhile isPyWhite)

/-- Worker for removeAll, with fuel bounding the number of consumed
characters so that the recursion is structural. -/
def removeAllAux : Nat → List Char → List Char → List Char
  | 0, _, l => l
  | fuel + 1, pat, l =>
    match l with
    | [] => []
    | c :: rest =>
      if !pat.isEmpty && pat.isPrefixOf (c :: rest) then
        removeAllAux fuel pat ((c :: rest).drop pat.length)
      else c :: removeAllAux fuel pat rest

/-- str.replace with an empty replacement: delete every occurrence of the
pattern, scanning left to right without rescanning produced text. -/
def removeAll (pat l : List Char) : List Char := removeAllAux l.length pat l

/-! ## Numeric conversions. -/

/-- Numeric value of a digit string. -/
def natVal (l : List Char) : Nat := l.foldl (fun acc c => acc * 10 + digitVal c) 0

/-- Python float conversion as applied to the amount capture, a nonempty
string over digits and dots: at most one dot and at least one digit, with
the exact decimal value (the embedding uses rationals, so the value is kept
exactly rather than rounded to binary floating point). -/
def parseFloat (l : List Char) : Option ℚ :=
  if l.all (fun c => isPyDigit c || c == '.') then
    match l.splitOn '.' with
    | [ip] => if ip.isEmpty then none else some (natVal ip : ℚ)
    | [ip, fp] =>
      if ip.isEmpty && fp.isEmpty then none
      else some ((natVal ip : ℚ) + (natVal fp : ℚ) / (10 : ℚ) ^ fp.length)
    | _ => none
  else none

/-- Decimal digits of a natural number, via fuel so that the definition is
structural and evaluates inside the kernel. -/
def natToDecAux : Nat → Nat → List Char → List Char
  | 0, _, acc => acc
  | fuel + 1, n, acc =>
    if n < 10 then Char.ofNat (48 + n) :: acc
    else natToDecAux fuel (n / 10) (Char.ofNat (48 + n % 10) :: acc)

/-- Decimal representation of a natural number. -/
def natToDec (n : Nat) : List Char := natToDecAux (n + 1) n []

/-- Two-digit zero-padded decimal representation. -/
def pad2 (n : Nat) : List Char :=
  if n < 10 then ['0', Char.ofNat (48 + n)] else natToDec n

/-- date.isoformat: YYYY-MM-DD. -/
def isoDate (y m d : Nat) : List Char :=
  natToDec y ++ '-' :: pad2 m ++ '-' :: pad2 d

/-! ## The datetime parse of the source: format "%y-%m-%d %H:%M". -/

/-- Gregorian leap year. -/
def isLeapYear (y : Nat) : Bool :=
  y % 4 == 0 && (y % 100 != 0 || y % 400 == 0)

/-- Days in a month of a given year. -/
def daysInMonth (y m : Nat) : Nat :=
  if m == 2 then (if isLeapYear y then 29 else 28)
  else if m == 4 || m == 6 || m == 9 || m == 11 then 30
  else 31

/-- A numeric strptime field of up to two digits followed by a given
separator, with the backtracking the generated regex performs (two digits
are preferred, one is accepted when the separator follows it). -/
def numThen (sep : Char) : List Char → Option (Nat × List Char)
  | a :: b :: c :: r =>
    if isPyDigit a && isPyDigit b && c == sep then some (10 * digitVal a + digitVal b, r)
    else if isPyDigit a && b == sep then some (digitVal a, c :: r)
    else none
  | [a, b] => if isPyDigit a && b == sep then some (digitVal a, []) else none
  | _ => none

/-- A numeric strptime field of up to two digits ending the string. -/
def numEnd : List Char → Option Nat
  | [a, b] => if isPyDigit a && isPyDigit b then some (10 * digitVal a + digitVal b) else none
  | [a] => if isPyDigit a then some (digitVal a) else none
  | _ => none

/-- pd.to_datetime with format "%y-%m-%d %H:%M": the whole string must
match the format, the two-digit year maps 00-68 to 2000-2068 and 69-99 to
1969-1999, and the fields must form a valid calendar date and clock time.
Returns the date triple (year, month, day); the clock part is validated and
then used only through the separately captured time string. -/
def strptimeDate (s : List Char) : Option (Nat × Nat × Nat) :=
  match numThen '-' s with
  | none => none
  | some (yv, r1) =>
    match numThen '-' r1 with
    | none => none
    | some (mv, r2) =>
      match numThen ' ' r2 with
      | none => none
      | some (dayv, r3) =>
        match numThen ':' r3 with
        | none => none
        | some (hv, r4) =>
          match numEnd r4 with
          | none => none
          | some minv =>
            let year := if yv ≤ 68 then 2000 + yv else 1900 + yv
            if 1 ≤ mv ∧ mv ≤ 12 ∧ 1 ≤ dayv ∧ dayv ≤ daysInMonth year mv ∧ hv ≤ 23 ∧ minv ≤ 59 then
              some (year, mv, dayv)
            else none

/-! ## The transaction record and the extractor. -/

/-- The dictionary built by extract_transaction_details; keys in source
order.  The amount is modelled as an exact rational. -/
structure TransactionRecord where
  Type' : List Char
  AmountSAR : ℚ
  Vendor : List Char
  Category : List Char
  CardNumber : List Char
  Date : List Char
  Time : List Char

/-- Exceptions extract_transaction_details can raise: the datetime parse
(evaluated first) and the float conversion inside the dict literal. -/
inductive PyError where
  | dateParse
  | floatParse
deriving DecidableEq

/-- extract_transaction_details: anchored type filter, then the five
searches (the source re-runs the type search as part of the all(...) test),
vendor post-processing, the datetime parse, the float conversion, and the
record.  An exception escapes as Except.error; both the type-filter
rejection and a missing field yield Except.ok none. -/
def extract_transaction_details (transaction : List Char) : Except PyError (Option TransactionRecord) :=
  match typeMatch transaction with
  | none => Except.ok none
  | some _ =>
    match pySearch matchAmountAt transaction, pySearch matchVendorAt transaction,
          pySearch matchDateAt transaction, pySearch matchTimeAt transaction,
          typeMatch transaction, pySearch matchCardAt transaction with
    | some amt, some ven, some dat, some tim, some ty, some card =>
      let vendor := removeAll vendorNoise (pyStrip ven)
      match strptimeDate (dat ++ ' ' :: tim) with
      | none => Except.error PyError.dateParse
      | some (y, m, d) =>
        match parseFloat amt with
        | none => Except.error PyError.floatParse
        | some q =>
          Except.ok (some { Type' := ty, AmountSAR := q, Vendor := vendor,
                            Category := "Other".data, CardNumber := card,
                            Date := isoDate y m d, Time := tim })
    | _, _, _, _, _, _ => Except.ok none

/-! ## The classifier: get_gpt_category.
The external chat-completion call is an oracle parameter: for a given
vendor and amount it either raises (any network, auth, quota or
malformed-response failure inside the try block) or returns a message
content, which in the client API may itself be absent (in that case the
strip call raises inside the try block and is likewise caught). -/

/-- Outcome of the external chat-completion request. -/
inductive ChatOutcome where
  | failure
  | success (content : Option (List Char))

/-- The fixed category set of the source, in source order. -/
def valid_categories : List (List Char) :=
  ["Food".data, "Shopping".data, "Transport".data, "Health".data,
   "Education".data, "Utilities".data, "Entertainment".data, "Other".data]

/-- get_gpt_category: on a successful call, strip the returned text and
keep it when it is exactly one of the eight valid categories, otherwise
return Other; every exception inside the try block is caught, logged and
turned into Other. -/
def get_gpt_category (vendor : List Char) (amount : ℚ)
    (svc : List Char → ℚ → ChatOutcome) : List Char :=
  match svc vendor amount with
  | ChatOutcome.failure => "Other".data
  | ChatOutcome.success none => "Other".data
  | ChatOutcome.success (some content) =>
    let category := pyStrip content
    if category ∈ valid_categories then category else "Other".data

/-! ## Persistence and orchestration. -/

/-- JSON values, the shape json.dump serializes and json.load returns. -/
inductive Json where
  | null
  | num (q : ℚ)
  | str (s : List Char)
  | arr (elems : List Json)
  | obj (fields : List (List Char × Json))

/-- The JSON object json.dump writes for one record: the dict keys of the
source, in source order. -/
def jsonOfRecord (r : TransactionRecord) : Json :=
  Json.obj [("Type".data, Json.str r.Type'),
            ("Amount (SAR)".data, Json.num r.AmountSAR),
            ("Vendor".data, Json.str r.Vendor),
            ("Category".data, Json.str r.Category),
            ("Card Number".data, Json.str r.CardNumber),
            ("Date".data, Json.str r.Date),
            ("Time".data, Json.str r.Time)]

/-- save_transactions_to_json: the file content after the write, as the
JSON value json.dump serializes (always an array of the records). -/
def save_transactions_to_json (data : List TransactionRecord) : Json :=
  Json.arr (data.map jsonOfRecord)

/-- Modelled from the spec: re-reading one persisted transaction object.
The reader of the output file is not part of src/ (the spec round-trip
property reads the file back with the standard JSON loader); the JSON
text layer is the mutually inverse dump and load pair of the standard
library, so the file is modelled at the level of the JSON value, and
re-reading a record looks its seven fields up by key with their expected
types. -/
def recordOfJson : Json → Option TransactionRecord
  | Json.obj fields =>
    match fields.lookup "Type".data, fields.lookup "Amount (SAR)".data,
          fields.lookup "Vendor".data, fields.lookup "Category".data,
          fields.lookup "Card Number".data, fields.lookup "Date".data,
          fields.lookup "Time".data with
    | some (Json.str ty), some (Json.num q), some (Json.str v), some (Json.str c),
      some (Json.str cn), some (Json.str d), some (Json.str ti) =>
      some { Type' := ty, AmountSAR := q, Vendor := v, Category := c,
             CardNumber := cn, Date := d, Time := ti }
    | _, _, _, _, _, _, _ => none
  | _ => none

/-- Modelled from the spec: re-reading the whole persisted file, an array
of transaction objects. -/
def load_transactions (file : Json) : Option (List TransactionRecord) :=
  match file with
  | Json.arr elems => elems.mapM recordOfJson
  | _ => none

/-- analyze_transaction: an absent record gives the empty list; otherwise
the category is overwritten with the classifier result and the record is
wrapped in a one-element list. -/
def analyze_transaction (transaction : Option TransactionRecord)
    (svc : List Char → ℚ → ChatOutcome) : List TransactionRecord :=
  match transaction with
  | none => []
  | some tr => [{ tr with Category := get_gpt_category tr.Vendor tr.AmountSAR svc }]

/-- process_sms_text: extract, classify, and persist when a record exists.
The second component of the result is the output-file write: none means
the file was not touched, some j means it was overwritten with j.  Any
exception from the pipeline is caught at the top level and reported as
none with no write. -/
def process_sms_text (sms_text : List Char)
    (svc : List Char → ℚ → ChatOutcome) : Option (List TransactionRecord) × Option Json :=
  match extract_transaction_details sms_text with
  | Except.error _ => (none, none)
  | Except.ok details =>
    let transaction := analyze_transaction details svc
    if transaction.isEmpty then (none, none)
    else (some transaction, some (save_transactions_to_json transaction))

/-! ## Theorems about the claims. -/

/-- Claim C1: for every vendor string and amount and every behavior of the
external text-generation service (a returned text, an absent content, or a
raised error), get_gpt_category returns normally, its result is a member of
the fixed eight-label set, and on any service failure the result is
Other. -/
theorem claim_C1 (vendor : List Char) (amount : ℚ) (svc : List Char → ℚ → ChatOutcome) :
    get_gpt_category vendor amount svc ∈ valid_categories ∧
    (svc vendor amount = ChatOutcome.failure →
      get_gpt_category vendor amount svc = "Other".data) ∧
    (svc vendor amount = ChatOutcome.success none →
      get_gpt_category vendor amount svc = "Other".data) := by
  unfold get_gpt_category
  cases h : svc vendor amount with
  | failure => exact ⟨by decide, fun _ => rfl, fun hc => by rfl⟩
  | success content =>
    cases content with
    | none => exact ⟨by decide, fun hc => by rfl, fun _ => rfl⟩
    | some t =>
      refine ⟨?_, ?_, ?_⟩
      · by_cases hm : pyStrip t ∈ valid_categories
        · simp only [hm, if_pos]
        · simp only [hm, if_neg, not_false_iff]
          decide
      · intro hc
        cases hc
      · intro hc
        cases hc

/-- Witness for claim C1 at a concrete vendor, amount and failing service. -/
theorem claim_C1_witness :
    get_gpt_category "HALA MARK".data (47.8 : ℚ) (fun _ _ => ChatOutcome.failure) = "Other".data :=
  (claim_C1 "HALA MARK".data (47.8 : ℚ) (fun _ _ => ChatOutcome.failure)).2.1 rfl

/-- Claim C9: when the external service returns a text, get_gpt_category
strips it and compares it by exact equality against the eight canonical
labels; an exact member is returned as is, anything else yields Other. -/
theorem claim_C9 (vendor : List Char) (amount : ℚ) (svc : List Char → ℚ → ChatOutcome)
    (t : List Char) (h : svc vendor amount = ChatOutcome.success (some t)) :
    (pyStrip t ∈ valid_categories → get_gpt_category vendor amount svc = pyStrip t) ∧
    (pyStrip t ∉ valid_categories → get_gpt_category vendor amount svc = "Other".data) := by
  unfold get_gpt_category
  rw [h]
  constructor <;> intro hm <;> simp only [hm, if_pos, if_neg, not_false_iff]

/-- Witness for claim C9: an out-of-set label, a lowercase variant and a
punctuated variant each degrade to Other, while an in-set answer survives
the trim; the comparison is exact and case sensitive. -/
theorem claim_C9_witness :
    get_gpt_category "HALA MARK".data (47.8 : ℚ)
      (fun _ _ => ChatOutcome.success (some "Groceries".data)) = "Other".data ∧
    get_gpt_category "HALA MARK".data (47.8 : ℚ)
      (fun _ _ => ChatOutcome.success (some "food".data)) = "Other".data ∧
    get_gpt_category "HALA MARK".data (47.8 : ℚ)
      (fun _ _ => ChatOutcome.success (some "Food.".data)) = "Other".data ∧
    get_gpt_category "HALA MARK".data (47.8 : ℚ)
      (fun _ _ => ChatOutcome.success (some " Food ".data)) = pyStrip " Food ".data ∧
    pyStrip " Food ".data = "Food".data :=
  ⟨(claim_C9 _ _ _ _ rfl).2 (by decide),
   (claim_C9 _ _ _ _ rfl).2 (by decide),
   (claim_C9 _ _ _ _ rfl).2 (by decide),
   (claim_C9 _ _ _ _ rfl).1 (by decide),
   by decide⟩

/-- Claim C3: an input that does not begin with the purchase marker or the
transfer marker produces no record. -/
theorem claim_C3 (t : List Char)
    (h1 : purchaseMarker.isPrefixOf t = false)
    (h2 : transferMarker.isPrefixOf t = false) :
    extract_transaction_details t = Except.ok none := by
  unfold extract_transaction_details typeMatch
  rw [h1, h2]
  rfl

/-- Witness for claim C3 at a concrete non-purchase text. -/
theorem claim_C3_witness :
    extract_transaction_details "hello, this is not an SMS".data = Except.ok none :=
  claim_C3 "hello, this is not an SMS".data rfl rfl

/-- Claim C7: when extraction yields no record (the text is rejected or a
raised parse error is caught), process_sms_text returns none and performs
no write to the output file. -/
theorem claim_C7 (t : List Char) (svc : List Char → ℚ → ChatOutcome)
    (h : extract_transaction_details t = Except.ok none ∨
         ∃ e, extract_transaction_details t = Except.error e) :
    process_sms_text t svc = (none, none) := by
  unfold process_sms_text
  rcases h with h | ⟨e, h⟩
  · rw [h]
    rfl
  · rw [h]

/-- Witness for claim C7 at a concrete non-purchase text. -/
theorem claim_C7_witness :
    process_sms_text "hello, this is not an SMS".data (fun _ _ => ChatOutcome.failure) =
      (none, none) :=
  claim_C7 "hello, this is not an SMS".data (fun _ _ => ChatOutcome.failure) (Or.inl rfl)

/-- Claim C8: persisting any record and re-reading the file yields a
one-element array whose single object carries all seven fields with the
original values and types. -/
theorem claim_C8 (r : TransactionRecord) :
    load_transactions (save_transactions_to_json [r]) = some [r] := rfl

/-- Sample record for the claim C8 witness. -/
def c8rec : TransactionRecord :=
  { Type' := "شراء".data, AmountSAR := (47.8 : ℚ), Vendor := "HALA MARK".data,
    Category := "Food".data, CardNumber := "0510".data,
    Date := "2025-02-02".data, Time := "06:44".data }

/-- Witness for claim C8 at a concrete record. -/
theorem claim_C8_witness :
    load_transactions (save_transactions_to_json [c8rec]) = some [c8rec] :=
  claim_C8 c8rec

/-- The well-formed sample SMS text of the spec, with real newlines. -/
def c2input : List Char :=
  "شراء\nبطاقة:0510;مدى-ابل باي\nمبلغ:SAR 47.80\nلدى:HALA MARK\nفي:25-2-2 06:44".data

/-- The record extracted from the sample SMS text.  The amount is written
in the exact shape the float conversion produces, so that the extraction
equality is definitional; a separate conjunct of the claim theorem
identifies it with the rational 47.8. -/
def c2rec : TransactionRecord :=
  { Type' := "شراء".data
    AmountSAR := (natVal "47".data : ℚ) + (natVal "80".data : ℚ) / (10 : ℚ) ^ ("80".data).length
    Vendor := "HALA MARK".data
    Category := "Other".data
    CardNumber := "0510".data
    Date := "2025-02-02".data
    Time := "06:44".data }

/-- Claim C2: on the specific sample input, extraction returns a record
whose seven fields are exactly the expected literals: the purchase type,
amount 47.80, vendor HALA MARK with no embedded marker artifact, category
Other, card digits 0510, the ISO date 2025-02-02 and the time 06:44. -/
theorem claim_C2 :
    extract_transaction_details c2input = Except.ok (some c2rec) ∧
    c2rec.Type' = "شراء".data ∧
    c2rec.AmountSAR = (47.8 : ℚ) ∧
    c2rec.Vendor = "HALA MARK".data ∧
    c2rec.Category = "Other".data ∧
    c2rec.CardNumber = "0510".data ∧
    c2rec.Date = "2025-02-02".data ∧
    c2rec.Time = "06:44".data := by
  refine ⟨rfl, rfl, ?_, rfl, rfl, rfl, rfl, rfl⟩
  have h1 : natVal "47".data = 47 := by decide
  have h2 : natVal "80".data = 80 := by decide
  have h3 : ("80".data).length = 2 := by decide
  show (natVal "47".data : ℚ) + (natVal "80".data : ℚ) / (10 : ℚ) ^ ("80".data).length = _
  rw [h1, h2, h3]
  norm_num

/-- Claim C4: when the type marker matches but any one of the five value
patterns is absent from the text, extraction produces no record. -/
theorem claim_C4 (t ty : List Char) (hty : typeMatch t = some ty)
    (h : pySearch matchAmountAt t = none ∨ pySearch matchVendorAt t = none ∨
         pySearch matchDateAt t = none ∨ pySearch matchTimeAt t = none ∨
         pySearch matchCardAt t = none) :
    extract_transaction_details t = Except.ok none := by
  unfold extract_transaction_details
  rw [hty]
  rcases h with h | h | h | h | h <;>
    cases hA : pySearch matchAmountAt t <;> cases hV : pySearch matchVendorAt t <;>
    cases hD : pySearch matchDateAt t <;> cases hT : pySearch matchTimeAt t <;>
    cases hC : pySearch matchCardAt t <;> simp_all

/-- Witness for claim C4: the sample text with its amount line removed is
rejected although the type marker matches. -/
theorem claim_C4_witness :
    extract_transaction_details "شراء\nبطاقة:0510\nلدى:HALA MARK\nفي:25-2-2 06:44".data =
      Except.ok none :=
  claim_C4 "شراء\nبطاقة:0510\nلدى:HALA MARK\nفي:25-2-2 06:44".data purchaseMarker rfl
    (Or.inl rfl)

/-- Claim C6: when all six surface patterns match but the combined date and
time strings do not parse under the format of the source, extraction raises
(rather than returning no record), and process_sms_text catches the error
at the top level and returns none without crashing and without writing. -/
theorem claim_C6 (t ty amt ven dat tim card : List Char)
    (svc : List Char → ℚ → ChatOutcome)
    (hty : typeMatch t = some ty)
    (hA : pySearch matchAmountAt t = some amt)
    (hV : pySearch matchVendorAt t = some ven)
    (hD : pySearch matchDateAt t = some dat)
    (hT : pySearch matchTimeAt t = some tim)
    (hC : pySearch matchCardAt t = some card)
    (hP : strptimeDate (dat ++ ' ' :: tim) = none) :
    extract_transaction_details t = Except.error PyError.dateParse ∧
    process_sms_text t svc = (none, none) := by
  have he : extract_transaction_details t = Except.error PyError.dateParse := by
    unfold extract_transaction_details
    rw [hty, hA, hV, hD, hT, hC]
    simp only [hP]
  refine ⟨he, ?_⟩
  unfold process_sms_text
  rw [he]

/-- Witness for claim C6: month 13 passes the surface pattern but fails the
calendar parse; extraction raises and the pipeline reports failure. -/
theorem claim_C6_witness :
    extract_transaction_details
        "شراء\nبطاقة:0510\nمبلغ:SAR 47.80\nلدى:HALA MARK\nفي:25-13-2 06:44".data =
      Except.error PyError.dateParse ∧
    process_sms_text "شراء\nبطاقة:0510\nمبلغ:SAR 47.80\nلدى:HALA MARK\nفي:25-13-2 06:44".data
        (fun _ _ => ChatOutcome.failure) =
      (none, none) :=
  claim_C6 "شراء\nبطاقة:0510\nمبلغ:SAR 47.80\nلدى:HALA MARK\nفي:25-13-2 06:44".data
    purchaseMarker "47.80".data "HALA MARK\nفي".data "25-13-2".data "06:44".data "0510".data
    (fun _ _ => ChatOutcome.failure) rfl rfl rfl rfl rfl rfl rfl

/-! ## Helper lemmas for the inversion of a successful extraction. -/

/-- A digit character has value at most nine. -/
theorem digitVal_le (c : Char) : digitVal c ≤ 9 := by
  unfold digitVal
  split
  · next h =>
    have h2 : c.toNat ≤ 57 := h.2
    omega
  · split
    · next h =>
      have h2 : c.toNat ≤ 1641 := h.2
      omega
    · omega

/-- A successful search means the matcher succeeded at some position. -/
theorem pySearch_some {m : List Char → Option (List Char)} :
    ∀ {t cap : List Char}, pySearch m t = some cap → ∃ s, m s = some cap := by
  intro t
  induction t with
  | nil => exact fun h => ⟨[], h⟩
  | cons c rest ih =>
    intro cap h
    unfold pySearch at h
    cases hm : m (c :: rest) with
    | some r =>
      rw [hm] at h
      exact ⟨c :: rest, hm.trans h⟩
    | none =>
      rw [hm] at h
      exact ih h

/-- Inversion of takeTwoDigits: the consumed characters are two digits. -/
theorem takeTwoDigits_some {r yy r1 : List Char} (h : takeTwoDigits r = some (yy, r1)) :
    ∃ a b, yy = [a, b] ∧ isPyDigit a = true ∧ isPyDigit b = true ∧ r = a :: b :: r1 := by
  unfold takeTwoDigits at h
  split at h
  · next a b rr =>
    split at h
    · next hab =>
      obtain ⟨ha, hb⟩ := Bool.and_eq_true_iff.mp hab
      injection h with h
      injection h with h1 h2
      exact ⟨a, b, h1.symm, ha, hb, by rw [h2]⟩
    · cases h
  · cases h

/-- Inversion of the date matcher: every date capture starts with two
digits followed by a dash. -/
theorem matchDateAt_shape {l cap : List Char} (h : matchDateAt l = some cap) :
    ∃ a b rest, cap = a :: b :: '-' :: rest ∧ isPyDigit a = true ∧ isPyDigit b = true := by
  unfold matchDateAt at h
  split at h
  · cases h
  · split at h
    · cases h
    · next r yy r1 heq =>
      obtain ⟨a, b, hyy, ha, hb, hr⟩ := takeTwoDigits_some heq
      split at h
      · next r2 =>
        split at h
        · cases h
        · next mm r3 heqMid =>
          split at h
          · cases h
          · next dd heqEnd =>
            injection h with h
            subst h
            rw [hyy]
            exact ⟨a, b, mm ++ '-' :: dd, by simp, ha, hb⟩
      · cases h

/-- On a date capture whose two year digits give a value of at least 69, a
successful strptime parse yields the year 1900 plus that value. -/
theorem strptime_year {d1 d2 : Char} {rest2 tim : List Char} {y m d : Nat}
    (hd1 : isPyDigit d1 = true) (hd2 : isPyDigit d2 = true)
    (hy : 69 ≤ 10 * digitVal d1 + digitVal d2)
    (hP : strptimeDate ((d1 :: d2 :: '-' :: rest2) ++ ' ' :: tim) = some (y, m, d)) :
    y = 1900 + (10 * digitVal d1 + digitVal d2) := by
  have happ : (d1 :: d2 :: '-' :: rest2) ++ ' ' :: tim
      = d1 :: d2 :: '-' :: (rest2 ++ ' ' :: tim) := rfl
  rw [happ] at hP
  have hnum : numThen '-' (d1 :: d2 :: '-' :: (rest2 ++ ' ' :: tim)) =
      some (10 * digitVal d1 + digitVal d2, rest2 ++ ' ' :: tim) := by
    cases hrs : rest2 ++ ' ' :: tim with
    | nil => simp [numThen, hd1, hd2]
    | cons x xs => simp [numThen, hd1, hd2]
  unfold strptimeDate at hP
  simp only [hnum] at hP
  split at hP
  · cases hP
  · split at hP
    · cases hP
    · split at hP
      · cases hP
      · split at hP
        · cases hP
        · split at hP
          · next h68 => omega
          · split at hP
            · injection hP with hP
              injection hP with h1 h2
              omega
            · cases hP

/-- Four-digit decimal representations of the years 1969 to 1999 start
with the two characters 1 and 9. -/
theorem natToDec_1900 : ∀ w, w < 100 → 69 ≤ w →
    (natToDec (1900 + w)).take 2 = ['1', '9'] ∧ 2 ≤ (natToDec (1900 + w)).length := by
  decide

/-- Inversion of a successful extraction: all six patterns matched, the
datetime parse and the float conversion succeeded, and the record is built
from the captures. -/
theorem extract_ok_some {t : List Char} {r : TransactionRecord}
    (h : extract_transaction_details t = Except.ok (some r)) :
    ∃ amt ven dat tim ty card y m d q,
      pySearch matchAmountAt t = some amt ∧
      pySearch matchVendorAt t = some ven ∧
      pySearch matchDateAt t = some dat ∧
      pySearch matchTimeAt t = some tim ∧
      typeMatch t = some ty ∧
      pySearch matchCardAt t = some card ∧
      strptimeDate (dat ++ ' ' :: tim) = some (y, m, d) ∧
      parseFloat amt = some q ∧
      r = { Type' := ty, AmountSAR := q, Vendor := removeAll vendorNoise (pyStrip ven),
            Category := "Other".data, CardNumber := card,
            Date := isoDate y m d, Time := tim } := by
  unfold extract_transaction_details at h
  split at h
  · cases h
  · split at h
    · next amt ven dat tim ty card hA hV hD hT hty hC =>
      split at h
      · cases h
      · next y m d hP =>
        split at h
        · cases h
        · next q hq =>
          injection h with h
          injection h with h
          exact ⟨amt, ven, dat, tim, ty, card, y, m, d, q, hA, hV, hD, hT, hty, hC, hP, hq,
            h.symm⟩
    · cases h

/-- Claim C10: a two-digit source year between 69 and 99 is mapped into
the twentieth century, so the Date field of the returned record starts
with the characters 1 and 9. -/
theorem claim_C10 (t : List Char) (r : TransactionRecord) (d1 d2 : Char) (rest : List Char)
    (hdate : pySearch matchDateAt t = some (d1 :: d2 :: rest))
    (hy : 69 ≤ 10 * digitVal d1 + digitVal d2)
    (hr : extract_transaction_details t = Except.ok (some r)) :
    r.Date.take 2 = ['1', '9'] := by
  obtain ⟨amt, ven, dat, tim, ty, card, y, m, d, q, hA, hV, hD, hT, hty, hC, hP, hq, hrec⟩ :=
    extract_ok_some hr
  rw [hdate] at hD
  injection hD with hD
  subst hD
  obtain ⟨s, hs⟩ := pySearch_some hdate
  obtain ⟨a, b, rest2, hcap, hda, hdb⟩ := matchDateAt_shape hs
  injection hcap with h1 hcap
  injection hcap with h2 hcap
  subst h1
  subst h2
  subst hcap
  have hyear := strptime_year hda hdb hy hP
  subst hrec
  show (isoDate y m d).take 2 = ['1', '9']
  obtain ⟨htake, hlen⟩ := natToDec_1900 (10 * digitVal d1 + digitVal d2)
    (by have := digitVal_le d1; have := digitVal_le d2; omega) hy
  rw [hyear]
  unfold isoDate
  rw [List.append_assoc, List.take_append_eq_append_take, htake,
    Nat.sub_eq_zero_of_le hlen, List.take_zero, List.append_nil]

/-- The record extracted from the sample SMS with source date 99-2-2. -/
def c10rec : TransactionRecord :=
  { Type' := "شراء".data
    AmountSAR := (natVal "47".data : ℚ) + (natVal "80".data : ℚ) / (10 : ℚ) ^ ("80".data).length
    Vendor := "HALA MARK".data
    Category := "Other".data
    CardNumber := "0510".data
    Date := "1999-02-02".data
    Time := "06:44".data }

/-- Witness for claim C10: the source date 99-2-2 yields 1999-02-02. -/
theorem claim_C10_witness :
    extract_transaction_details
        "شراء\nبطاقة:0510\nمبلغ:SAR 47.80\nلدى:HALA MARK\nفي:99-2-2 06:44".data =
      Except.ok (some c10rec) ∧
    (c10rec.Date).take 2 = ['1', '9'] :=
  ⟨rfl, claim_C10 "شراء\nبطاقة:0510\nمبلغ:SAR 47.80\nلدى:HALA MARK\nفي:99-2-2 06:44".data
    c10rec '9' '9' "-2-2".data rfl (by decide) rfl⟩

/-! ## Helper lemmas about the vendor post-processing. -/

/-- The head of a dropWhile result does not satisfy the predicate. -/
theorem head_dropWhile_false {p : Char → Bool} :
    ∀ {l : List Char} {c : Char}, (l.dropWhile p).head? = some c → p c = false := by
  intro l
  induction l with
  | nil => intro c h; cases h
  | cons a rest ih =>
    intro c h
    by_cases hp : p a = true
    · rw [List.dropWhile_cons, if_pos hp] at h
      exact ih h
    · rw [List.dropWhile_cons, if_neg hp] at h
      injection h with h
      subst h
      exact Bool.eq_false_iff.mpr hp

/-- Removing trailing whitespace preserves the head when any remains. -/
theorem dropTrailWhite_head : ∀ {l : List Char} {c : Char},
    (dropTrailWhite l).head? = some c → l.head? = some c := by
  intro l c h
  cases l with
  | nil => exact Option.noConfusion h
  | cons a rest =>
    unfold dropTrailWhite at h
    cases hd : dropTrailWhite rest with
    | nil =>
      rw [hd] at h
      by_cases hw : isPyWhite a = true
      · rw [if_pos hw] at h
        exact Option.noConfusion h
      · rw [if_neg hw] at h
        exact h
    | cons x xs =>
      rw [hd] at h
      exact h

/-- The head of a stripped string is never whitespace. -/
theorem pyStrip_head {l : List Char} {c : Char}
    (h : (pyStrip l).head? = some c) : isPyWhite c = false :=
  head_dropWhile_false (dropTrailWhite_head h)

/-- Removing the vendor noise substring keeps the head of a string whose
head is not whitespace, because the noise substring starts with a newline;
the resulting head is therefore still not whitespace. -/
theorem removeAll_vendorNoise_head {l : List Char} {c : Char}
    (h0 : ∀ c0, l.head? = some c0 → isPyWhite c0 = false)
    (h : (removeAll vendorNoise l).head? = some c) : isPyWhite c = false := by
  cases l with
  | nil => exact Option.noConfusion h
  | cons a rest =>
    have ha : isPyWhite a = false := h0 a rfl
    have hne : ('\n' == a) = false := by
      cases hq : ('\n' == a) with
      | false => rfl
      | true =>
        exfalso
        have : '\n' = a := eq_of_beq hq
        rw [← this] at ha
        exact absurd ha (by decide)
    have hpre : vendorNoise.isPrefixOf (a :: rest) = false := by
      have hv : vendorNoise = '\n' :: 'ف' :: 'ي' :: [] := rfl
      rw [hv]
      simp [List.isPrefixOf, hne]
    have hred : removeAll vendorNoise (a :: rest)
        = a :: removeAllAux rest.length vendorNoise rest := by
      show removeAllAux (rest.length + 1) vendorNoise (a :: rest) = _
      simp [removeAllAux, hpre]
    rw [hred] at h
    injection h with h
    rw [← h]
    exact ha

/-- Amended claim C5: the Vendor field of every returned record is exactly
the vendor capture with surrounding whitespace stripped and the noise
substring (newline followed by the date marker) then deleted left to
right; in particular it never starts with whitespace.  The original claim
additionally asserted non-emptiness, absence of trailing whitespace and
absence of the noise substring, which the code does not guarantee. -/
theorem claim_C5 (t : List Char) (r : TransactionRecord)
    (hr : extract_transaction_details t = Except.ok (some r)) :
    (∃ cap, pySearch matchVendorAt t = some cap ∧
        r.Vendor = removeAll vendorNoise (pyStrip cap)) ∧
    ∀ c, r.Vendor.head? = some c → isPyWhite c = false := by
  obtain ⟨amt, ven, dat, tim, ty, card, y, m, d, q, hA, hV, hD, hT, hty, hC, hP, hq, hrec⟩ :=
    extract_ok_some hr
  subst hrec
  refine ⟨⟨ven, hV, rfl⟩, ?_⟩
  intro c hc
  exact removeAll_vendorNoise_head (fun c0 hc0 => pyStrip_head hc0) hc

/-- The record extracted from the counterexample input of claim C5: the
vendor capture HALA-space-newline-date-marker strips to itself and loses
the noise substring, leaving a trailing space in the Vendor field. -/
def c5rec : TransactionRecord :=
  { Type' := "شراء".data
    AmountSAR := (natVal "47".data : ℚ) + (natVal "80".data : ℚ) / (10 : ℚ) ^ ("80".data).length
    Vendor := "HALA ".data
    Category := "Other".data
    CardNumber := "0510".data
    Date := "2025-02-02".data
    Time := "06:44".data }

/-- Counterexample to claim C5 as stated: on this input extraction returns
a record whose Vendor field ends with a whitespace character, so the
Vendor field of a returned record can carry trailing whitespace. -/
theorem claim_C5_counterexample :
    extract_transaction_details
        "شراء\nبطاقة:0510\nمبلغ:SAR 47.80\nلدى:HALA \nفي:25-2-2 06:44".data =
      Except.ok (some c5rec) ∧
    c5rec.Vendor = "HALA ".data ∧
    c5rec.Vendor.getLast? = some ' ' ∧
    isPyWhite ' ' = true :=
  ⟨rfl, rfl, by decide, by decide⟩

/-- The record extracted from the witness input of claim C5. -/
def c5wrec : TransactionRecord :=
  { Type' := "شراء".data
    AmountSAR := (natVal "10".data : ℚ) + (natVal "50".data : ℚ) / (10 : ℚ) ^ ("50".data).length
    Vendor := "X CAFE".data
    Category := "Other".data
    CardNumber := "1234".data
    Date := "2025-03-04".data
    Time := "10:30".data }

/-- Witness for the amended claim C5 at a concrete input. -/
theorem claim_C5_witness :
    (∃ cap, pySearch matchVendorAt
        "شراء\nبطاقة:1234\nمبلغ:SAR 10.50\nلدى:X CAFE\nفي:25-3-4 10:30".data = some cap ∧
      c5wrec.Vendor = removeAll vendorNoise (pyStrip cap)) ∧
    ∀ c, c5wrec.Vendor.head? = some c → isPyWhite c = false :=
  claim_C5 "شراء\nبطاقة:1234\nمبلغ:SAR 10.50\nلدى:X CAFE\nفي:25-3-4 10:30".data c5wrec rfl

end TransactionsAnalysis
